import Mathlib

/-!
Verification development for a minimal Express + TypeORM CRUD service
(`src/index.ts`, schema in `init.sql`).

The service manages two entities, `User` and `Post`, stored in two MySQL
tables.  `init.sql` declares `post.userId INT NOT NULL` with
`FOREIGN KEY (userId) REFERENCES user(id) ON DELETE CASCADE ON UPDATE CASCADE`.
We shallowly embed the database state as two lists of records, each HTTP
handler as a pure function from request data and state to a response and a
new state, and the startup retry loop as a fuelled recursion.

JavaScript truthiness matters throughout: the handlers guard updates with
`if (field)` or `field || old`, so the empty string and the number `0`
behave as if the field were absent.  We model optional body fields as
`Option String` / `Option Nat` and truthiness explicitly.

Storage failures (the `catch` branches of every handler) are modelled by an
`err : Option String` parameter: `some e` means the first data-access call
inside the handler's `try` block throws an exception whose detail text is
`e`; the handler then answers with its fixed 500 message, exactly as the
`catch` branch in the source does.
-/

namespace CrudApp

/-- A row of the `user` table: `id` is the auto-increment primary key,
`firstName`, `lastName`, `email` are `NOT NULL` strings. -/
structure User where
  id : Nat
  firstName : String
  lastName : String
  email : String
deriving Repr, DecidableEq

/-- A row of the `post` table: `id` primary key, `title` and `description`
`NOT NULL` strings, `userId` the `NOT NULL` foreign key to `user(id)`. -/
structure Post where
  id : Nat
  title : String
  description : String
  userId : Nat
deriving Repr, DecidableEq

/-- The persistent state: the two tables. -/
structure DB where
  users : List User
  posts : List Post
deriving Repr, DecidableEq

/-- JavaScript truthiness of a possibly-absent string body field:
`undefined`/missing and the empty string are falsy, every other string is
truthy. -/
def truthyStr : Option String → Bool
  | none => false
  | some s => !(s == "")

/-- JavaScript truthiness of a possibly-absent numeric body field:
`undefined`/missing and `0` are falsy. -/
def truthyNat : Option Nat → Bool
  | none => false
  | some n => !(n == 0)

/-- JavaScript `a || b` where `a` is a possibly-absent string and `b` a
string: yields `a`'s value when truthy, else `b`. -/
def jsOrStr (a : Option String) (b : String) : String :=
  if truthyStr a then a.getD b else b

/-- The `findOne` call with a `where id` clause on the user repository:
first user row with the given id. -/
def findUser (db : DB) (uid : Nat) : Option User :=
  db.users.find? (fun u => u.id == uid)

/-- The `findOne` call with a `where id` clause on the post repository. -/
def findPost (db : DB) (pid : Nat) : Option Post :=
  db.posts.find? (fun p => p.id == pid)

/-- The `save` call on an already-loaded user row: writes the record back
under its primary key. -/
def saveUser (db : DB) (u : User) : DB :=
  { db with users := db.users.map (fun x => if x.id == u.id then u else x) }

/-- The `save` call on an already-loaded post row. -/
def savePost (db : DB) (p : Post) : DB :=
  { db with posts := db.posts.map (fun x => if x.id == p.id then p else x) }

/-- The MySQL auto-increment value used when inserting a fresh user. -/
def nextUserId (db : DB) : Nat :=
  (db.users.map User.id).foldr max 0 + 1

/-- The MySQL auto-increment value used when inserting a fresh post. -/
def nextPostId (db : DB) : Nat :=
  (db.posts.map Post.id).foldr max 0 + 1

/-- An HTTP response as the handlers build it. -/
inductive HttpResponse where
  | okUsers (us : List User)
  | okUser (u : User)
  | okPosts (ps : List Post)
  | okPost (p : Post)
  | okMsg (m : String)
  | createdUser (u : User)
  | createdPost (p : Post)
  | notFound (m : String)
  | badRequest (m : String)
  | serverError (m : String)
deriving Repr, DecidableEq

/-- The HTTP status code of a response. -/
def HttpResponse.status : HttpResponse → Nat
  | .okUsers _ => 200
  | .okUser _ => 200
  | .okPosts _ => 200
  | .okPost _ => 200
  | .okMsg _ => 200
  | .createdUser _ => 201
  | .createdPost _ => 201
  | .notFound _ => 404
  | .badRequest _ => 400
  | .serverError _ => 500

/-- The JSON body of a user-mutating request: any subset of
`firstName`, `lastName`, `email` (absent fields are `none`). -/
structure UserBody where
  firstName : Option String
  lastName : Option String
  email : Option String
deriving Repr, DecidableEq

/-- The JSON body of a post-mutating request.  `userId` is accepted on the
wire, but the `PUT /posts/:id` handler destructures only `title` and
`description` from the body, so it never reads `userId`. -/
structure PostBody where
  title : Option String
  description : Option String
  userId : Option Nat
deriving Repr, DecidableEq

/-- The field-update block of `PUT /users/:id`:
an `if (field) user.field = field` statement per field. -/
def applyUserUpdate (b : UserBody) (u : User) : User :=
  let u1 := if truthyStr b.firstName then
    { u with firstName := b.firstName.getD u.firstName } else u
  let u2 := if truthyStr b.lastName then
    { u1 with lastName := b.lastName.getD u1.lastName } else u1
  if truthyStr b.email then { u2 with email := b.email.getD u2.email } else u2

/-- The field-update block of `PUT /posts/:id`:
`post.title = title || post.title` and likewise for `description`. -/
def applyPostUpdate (b : PostBody) (p : Post) : Post :=
  { p with title := jsOrStr b.title p.title,
           description := jsOrStr b.description p.description }

/-- One data-access round-trip, recorded so we can state which requests
touch the database at all. -/
inductive DbOp where
  | findUserById (uid : Nat)
  | insertPost (p : Post)
deriving Repr, DecidableEq

/-- Handler of `GET /users`: list all users; on a storage failure the
`catch` branch answers 500 with a fixed message. -/
def getUsersHandler (err : Option String) (db : DB) : HttpResponse × DB :=
  match err with
  | some _ => (.serverError "Error fetching users", db)
  | none => (.okUsers db.users, db)

/-- Handler of `POST /users`: create a user from the body with no
validation, answer 201 with the stored record. -/
def postUsersHandler (b : UserBody) (err : Option String) (db : DB) :
    HttpResponse × DB :=
  match err with
  | some _ => (.serverError "Error creating user", db)
  | none =>
    let u : User := { id := nextUserId db, firstName := b.firstName.getD "",
                      lastName := b.lastName.getD "", email := b.email.getD "" }
    (.createdUser u, { db with users := db.users ++ [u] })

/-- Handler of `PUT /users/:id`: look the user up, 404 if absent, overwrite
each field only when the body value is truthy, save, answer 200. -/
def putUserHandler (uid : Nat) (b : UserBody) (err : Option String) (db : DB) :
    HttpResponse × DB :=
  match err with
  | some _ => (.serverError "Error updating user", db)
  | none =>
    match findUser db uid with
    | none => (.notFound "User not found", db)
    | some u =>
      let u2 := applyUserUpdate b u
      (.okUser u2, saveUser db u2)

/-- Handler of `DELETE /users/:id`: look the user up, 404 if absent, remove
the row.  The storage layer's `ON DELETE CASCADE` constraint on
`post.userId` (from `init.sql`) removes every post owned by that user in
the same storage-level operation. -/
def deleteUserHandler (uid : Nat) (err : Option String) (db : DB) :
    HttpResponse × DB :=
  match err with
  | some _ => (.serverError "Error deleting user", db)
  | none =>
    match findUser db uid with
    | none => (.notFound "User not found", db)
    | some u =>
      (.okMsg "User deleted successfully",
        { users := db.users.filter (fun x => !(x.id == u.id)),
          posts := db.posts.filter (fun p => !(p.userId == u.id)) })

/-- Handler of `POST /posts`: the presence check on
`title`, `description`, `userId` runs before the `try` block and before any
repository call; then the owning user is looked up (404 if absent) and the
post inserted.  The third component records the data-access operations the
request performed. -/
def postPostsHandler (b : PostBody) (err : Option String) (db : DB) :
    HttpResponse × DB × List DbOp :=
  if !truthyStr b.title || !truthyStr b.description || !truthyNat b.userId then
    (.badRequest "Title, description, and userId are required", db, [])
  else
    match err with
    | some _ => (.serverError "Error creating post", db, [])
    | none =>
      let uid := b.userId.getD 0
      match findUser db uid with
      | none => (.notFound "User not found", db, [.findUserById uid])
      | some u =>
        let p : Post := { id := nextPostId db, title := b.title.getD "",
                          description := b.description.getD "", userId := u.id }
        (.createdPost p, { db with posts := db.posts ++ [p] },
          [.findUserById uid, .insertPost p])

/-- Handler of `GET /users/:id/posts`: all posts whose `userId` matches the
path parameter; no existence check on the user itself. -/
def getUserPostsHandler (uid : Nat) (err : Option String) (db : DB) :
    HttpResponse × DB :=
  match err with
  | some _ => (.serverError "Error fetching posts", db)
  | none => (.okPosts (db.posts.filter (fun p => p.userId == uid)), db)

/-- Handler of `PUT /posts/:id`: look the post up, 404 if absent, overwrite
`title`/`description` via the JavaScript or-else idiom, save, answer 200.
The body's `userId`, if any, is never read. -/
def putPostHandler (pid : Nat) (b : PostBody) (err : Option String) (db : DB) :
    HttpResponse × DB :=
  match err with
  | some _ => (.serverError "Error updating post", db)
  | none =>
    match findPost db pid with
    | none => (.notFound "Post not found", db)
    | some p =>
      let p2 := applyPostUpdate b p
      (.okPost p2, savePost db p2)

/-- Handler of `DELETE /posts/:id`: look the post up, 404 if absent,
remove it, answer 200. -/
def deletePostHandler (pid : Nat) (err : Option String) (db : DB) :
    HttpResponse × DB :=
  match err with
  | some _ => (.serverError "Error deleting post", db)
  | none =>
    match findPost db pid with
    | none => (.notFound "Post not found", db)
    | some p =>
      (.okMsg "Post deleted successfully",
        { db with posts := db.posts.filter (fun x => !(x.id == p.id)) })

/-- Outcome of the startup connection loop: either the data source was
initialized (after `attemptsMade` attempts, having slept `delayMs`
milliseconds in total) or the process exited with `code`. -/
inductive InitOutcome where
  | connected (attemptsMade : Nat) (delayMs : Nat)
  | exited (code : Nat) (attemptsMade : Nat) (delayMs : Nat)
deriving Repr, DecidableEq

/-- The body of the `while (retries)` loop of `initializeDatabase`:
`fuel` is the current value of `retries`; `att` counts attempts already
made (so `succeeds att` is the outcome of the next attempt) and `delay`
the milliseconds slept so far.  Each failure decrements `retries` and
sleeps 5000 ms; when `retries` hits 0 the guard after the loop calls
`process.exit(1)`. -/
def initLoopAux (succeeds : Nat → Bool) : Nat → Nat → Nat → InitOutcome
  | 0, att, delay => .exited 1 att delay
  | fuel + 1, att, delay =>
    if succeeds att then .connected (att + 1) delay
    else initLoopAux succeeds fuel (att + 1) (delay + 5000)

/-- The `initializeDatabase` startup routine: up to 10 attempts, a fixed
5000 ms sleep after each failure, `process.exit(1)` on exhaustion.
`succeeds n` tells whether the attempt made after `n` earlier failures
would succeed. -/
def initializeDatabase (succeeds : Nat → Bool) : InitOutcome :=
  initLoopAux succeeds 10 0 0

/-- Invariant of the schema: every post's foreign key references some user
row (the `NOT NULL` + `FOREIGN KEY` constraint of `init.sql`). -/
def DB.ownerExists (db : DB) : Prop :=
  ∀ p ∈ db.posts, ∃ u ∈ db.users, u.id = p.userId

/-- Invariant of the schema: `user.id` is a primary key, so user ids are
pairwise distinct. -/
def DB.uniqueUserIds (db : DB) : Prop :=
  db.users.Pairwise (fun a b => a.id ≠ b.id)

/-! ### Helper lemmas -/

/-- If every attempt within the remaining fuel fails, the loop exhausts its
fuel and exits with code 1, having slept 5000 ms per failure. -/
theorem initLoopAux_exhaust (succeeds : Nat → Bool) :
    ∀ (fuel att delay : Nat),
      (∀ i, att ≤ i → i < att + fuel → succeeds i = false) →
      initLoopAux succeeds fuel att delay =
        .exited 1 (att + fuel) (delay + 5000 * fuel) := by
  intro fuel
  induction fuel with
  | zero => intro att delay _; simp [initLoopAux]
  | succ f ih =>
    intro att delay h
    have hatt : succeeds att = false := h att le_rfl (by omega)
    have step := ih (att + 1) (delay + 5000) (fun i h1 h2 => h i (by omega) (by omega))
    simp only [initLoopAux, hatt, Bool.false_eq_true, if_false, step]
    congr 1 <;> omega

/-- If the first `k` attempts fail and attempt `k` (0-based) succeeds within
the fuel, the loop stops with `k + 1` attempts made and `5000 * k` ms of
sleep accumulated. -/
theorem initLoopAux_connect (succeeds : Nat → Bool) :
    ∀ (k fuel att delay : Nat), k < fuel →
      (∀ i, att ≤ i → i < att + k → succeeds i = false) →
      succeeds (att + k) = true →
      initLoopAux succeeds fuel att delay =
        .connected (att + k + 1) (delay + 5000 * k) := by
  intro k
  induction k with
  | zero =>
    intro fuel att delay hlt _ hsucc
    obtain ⟨f, rfl⟩ : ∃ f, fuel = f + 1 := ⟨fuel - 1, by omega⟩
    simp only [Nat.add_zero] at hsucc
    simp [initLoopAux, hsucc]
  | succ k ih =>
    intro fuel att delay hlt hfail hsucc
    obtain ⟨f, rfl⟩ : ∃ f, fuel = f + 1 := ⟨fuel - 1, by omega⟩
    have hatt : succeeds att = false := hfail att le_rfl (by omega)
    have step := ih f (att + 1) (delay + 5000) (by omega)
      (fun i h1 h2 => hfail i (by omega) (by omega))
      (by have : att + 1 + k = att + (k + 1) := by omega
          rw [this]; exact hsucc)
    simp only [initLoopAux, hatt, Bool.false_eq_true, if_false, step]
    congr 1 <;> omega

/-- A successful `find?` on an id predicate pins the found row's id. -/
theorem id_of_find?_eq_some {α : Type} (idf : α → Nat) {l : List α} {uid : Nat}
    {u : α} (h : l.find? (fun x => idf x == uid) = some u) : idf u = uid := by
  have := List.find?_some h
  simpa using this

/-- Replacing the row that carries a given primary key and searching for
that key again finds the replacement. -/
theorem find?_map_replace {α : Type} (idf : α → Nat) (uid : Nat) :
    ∀ (l : List α) (u u2 : α),
      l.find? (fun x => idf x == uid) = some u → idf u2 = idf u →
      (l.map (fun x => if idf x == idf u2 then u2 else x)).find?
        (fun x => idf x == uid) = some u2 := by
  intro l
  induction l with
  | nil => intro u u2 h _; simp at h
  | cons a t ih =>
    intro u u2 h hid
    have huid : idf u = uid := id_of_find?_eq_some idf h
    by_cases ha : idf a = uid
    · rw [List.find?_cons_of_pos _ (by simpa using ha)] at h
      have hau : a = u := by simpa using h
      subst hau
      simp only [List.map_cons]
      rw [if_pos (by simp [hid])]
      exact List.find?_cons_of_pos _ (by simp [hid, huid])
    · rw [List.find?_cons_of_neg _ (by simpa using ha)] at h
      simp only [List.map_cons]
      rw [if_neg (by simp [hid, huid]; omega)]
      rw [List.find?_cons_of_neg _ (by simpa using ha)]
      exact ih u u2 h hid

/-- Rows of a list with pairwise-distinct ids are determined by their id. -/
theorem eq_of_pairwise_ne_id {α : Type} (idf : α → Nat) :
    ∀ (l : List α), l.Pairwise (fun a b => idf a ≠ idf b) →
      ∀ x ∈ l, ∀ y ∈ l, idf x = idf y → x = y := by
  intro l
  induction l with
  | nil => simp
  | cons a t ih =>
    intro hpw x hx y hy hxy
    rcases List.pairwise_cons.mp hpw with ⟨ha, ht⟩
    rcases List.mem_cons.mp hx with rfl | hx' <;>
      rcases List.mem_cons.mp hy with rfl | hy'
    · rfl
    · exact absurd hxy (ha y hy')
    · exact absurd hxy.symm (ha x hx')
    · exact ih ht x hx' y hy' hxy

/-- Writing a row back unchanged is a no-op when ids are pairwise
distinct. -/
theorem map_replace_self {α : Type} (idf : α → Nat)
    (l : List α) (u : α) (hmem : u ∈ l)
    (hpw : l.Pairwise (fun a b => idf a ≠ idf b)) :
    l.map (fun x => if idf x == idf u then u else x) = l := by
  have hpt : ∀ x ∈ l, (if idf x == idf u then u else x) = id x := by
    intro x hx
    by_cases hid : idf x = idf u
    · have hx_eq : x = u := eq_of_pairwise_ne_id idf l hpw x hx u hmem hid
      simp [hx_eq]
    · simp [hid]
  rw [List.map_congr_left hpt, List.map_id]

/-- The field-update block of `PUT /users/:id` never touches the primary
key. -/
theorem applyUserUpdate_id (b : UserBody) (u : User) :
    (applyUserUpdate b u).id = u.id := by
  unfold applyUserUpdate
  split <;> split <;> split <;> rfl

/-- Resulting `firstName` of the update block, as a single conditional. -/
theorem applyUserUpdate_firstName (b : UserBody) (u : User) :
    (applyUserUpdate b u).firstName =
      if truthyStr b.firstName then b.firstName.getD u.firstName
      else u.firstName := by
  unfold applyUserUpdate
  split <;> split <;> split <;> rfl

/-- Resulting `lastName` of the update block, as a single conditional. -/
theorem applyUserUpdate_lastName (b : UserBody) (u : User) :
    (applyUserUpdate b u).lastName =
      if truthyStr b.lastName then b.lastName.getD u.lastName
      else u.lastName := by
  unfold applyUserUpdate
  split <;> split <;> split <;> rfl

/-- Resulting `email` of the update block, as a single conditional. -/
theorem applyUserUpdate_email (b : UserBody) (u : User) :
    (applyUserUpdate b u).email =
      if truthyStr b.email then b.email.getD u.email
      else u.email := by
  unfold applyUserUpdate
  split <;> split <;> split <;> rfl

/-- A truthy optional string is `some` of its `getD` value. -/
theorem truthy_getD {a : Option String} (h : truthyStr a = true) (d : String) :
    a = some (a.getD d) := by
  cases a with
  | none => simp [truthyStr] at h
  | some s => rfl

/-- After a `save` of a row whose id is the searched key, `findOne` returns
the saved row. -/
theorem findUser_saveUser {db : DB} {uid : Nat} {u u2 : User}
    (hu : findUser db uid = some u) (hid : u2.id = u.id) :
    findUser (saveUser db u2) uid = some u2 := by
  unfold findUser saveUser at *
  exact find?_map_replace User.id uid db.users u u2 hu hid

/-- After a `save` of a post whose id is the searched key, `findOne`
returns the saved row. -/
theorem findPost_savePost {db : DB} {pid : Nat} {p p2 : Post}
    (hp : findPost db pid = some p) (hid : p2.id = p.id) :
    findPost (savePost db p2) pid = some p2 := by
  unfold findPost savePost at *
  exact find?_map_replace Post.id pid db.posts p p2 hp hid

/-- Saving back an unmodified user row leaves the database unchanged when
user ids are unique. -/
theorem saveUser_self {db : DB} {u : User} (hmem : u ∈ db.users)
    (huniq : db.uniqueUserIds) : saveUser db u = db := by
  unfold saveUser
  have h := map_replace_self User.id db.users u hmem huniq
  cases db
  simpa using h

/-! ### Concrete fixtures used by the witness theorems -/

/-- A concrete user row. -/
def userW : User :=
  { id := 1, firstName := "Ada", lastName := "Lovelace",
    email := "ada@example.com" }

/-- A second concrete user row. -/
def userW2 : User :=
  { id := 2, firstName := "Bob", lastName := "Byte", email := "bob@example.com" }

/-- A concrete post row owned by `userW`. -/
def postW : Post := { id := 1, title := "T", description := "D", userId := 1 }

/-- A concrete post row owned by `userW2`. -/
def postW2 : Post := { id := 2, title := "U", description := "E", userId := 2 }

/-- A concrete well-formed database. -/
def dbW : DB := { users := [userW, userW2], posts := [postW, postW2] }

/-- A post body with an empty-string description (falsy). -/
def pbMissing : PostBody :=
  { title := some "T", description := some "", userId := some 1 }

/-- A post body with all three fields truthy. -/
def pbFull : PostBody :=
  { title := some "T2", description := some "D2", userId := some 1 }

/-- A post body with all fields truthy but an absent owner id. -/
def pbNoUser : PostBody :=
  { title := some "T3", description := some "D3", userId := some 99 }

/-- A user body supplying only an empty-string first name. -/
def ubEmptyFirst : UserBody :=
  { firstName := some "", lastName := none, email := none }

/-- A user body with every field truthy. -/
def ubFull : UserBody :=
  { firstName := some "Grace", lastName := some "Hopper",
    email := some "grace@example.com" }

/-! ### Claim theorems -/

/-- C3: at startup, `initializeDatabase` attempts initialization at most 10
times with a fixed 5000 ms sleep after each failure; if all 10 attempts
fail it exits the process with code 1 after exactly 10 attempts and
50000 ms (~50 s) of cumulative delay; if the attempt after `k` failures
(`k < 10`) succeeds, the loop stops after `k + 1` attempts without
exiting. -/
theorem initializeDatabase_retry_spec (succeeds : Nat → Bool) :
    ((∀ i, i < 10 → succeeds i = false) →
      initializeDatabase succeeds = .exited 1 10 50000) ∧
    (∀ k, k < 10 → (∀ i, i < k → succeeds i = false) → succeeds k = true →
      initializeDatabase succeeds = .connected (k + 1) (5000 * k)) := by
  constructor
  · intro h
    have hx := initLoopAux_exhaust succeeds 10 0 0
      (fun i _ h2 => h i (by omega))
    simpa [initializeDatabase] using hx
  · intro k hk hfail hsucc
    have hc := initLoopAux_connect succeeds k 10 0 0 hk
      (fun i _ h2 => hfail i (by omega)) (by simpa using hsucc)
    simpa [initializeDatabase] using hc

/-- Witness for C3: with every attempt failing the loop exits with code 1
after 10 attempts and 50000 ms of sleep; with the fourth attempt (index 3)
succeeding it connects after 4 attempts and 15000 ms of sleep. -/
theorem initializeDatabase_retry_spec_witness :
    initializeDatabase (fun _ => false) = .exited 1 10 50000 ∧
    initializeDatabase (fun n => n == 3) = .connected (3 + 1) (5000 * 3) :=
  ⟨(initializeDatabase_retry_spec (fun _ => false)).1 (fun _ _ => rfl),
   (initializeDatabase_retry_spec (fun n => n == 3)).2 3 (by decide)
     (by decide) (by decide)⟩

/-- C4: `POST /posts` with any of `title`, `description`, `userId` missing
or falsy answers 400 with the fixed message, leaves the state unchanged and
performs no data-access operation, whatever the storage layer would have
done (`err` arbitrary): the presence check runs before any repository
call. -/
theorem postPosts_missing_field_400 (b : PostBody) (err : Option String)
    (db : DB)
    (h : truthyStr b.title = false ∨ truthyStr b.description = false ∨
      truthyNat b.userId = false) :
    postPostsHandler b err db =
      (.badRequest "Title, description, and userId are required", db, []) := by
  unfold postPostsHandler
  rcases h with h | h | h <;> simp [h]

/-- Witness for C4: an empty-string description is falsy, so the request is
rejected with 400, the database is untouched and no operation ran. -/
theorem postPosts_missing_field_400_witness :
    (truthyStr pbMissing.title = false ∨
      truthyStr pbMissing.description = false ∨
      truthyNat pbMissing.userId = false) ∧
    postPostsHandler pbMissing (some "imminent failure") dbW =
      (.badRequest "Title, description, and userId are required", dbW, []) :=
  ⟨Or.inr (Or.inl (by decide)),
   postPosts_missing_field_400 pbMissing (some "imminent failure") dbW
     (Or.inr (Or.inl (by decide)))⟩

/-- C5: `POST /posts` with all three fields truthy but no user under the
supplied id answers 404, performs only the user lookup, and persists
nothing: the state is returned unchanged, so no dangling foreign key is
created. -/
theorem postPosts_absent_user_404 (b : PostBody) (db : DB)
    (ht : truthyStr b.title = true) (hd : truthyStr b.description = true)
    (hn : truthyNat b.userId = true)
    (hu : findUser db (b.userId.getD 0) = none) :
    postPostsHandler b none db =
      (.notFound "User not found", db, [.findUserById (b.userId.getD 0)]) := by
  unfold postPostsHandler
  simp [ht, hd, hn, hu]

/-- Witness for C5: creating a post for the absent user id 99 yields 404
and leaves the database unchanged. -/
theorem postPosts_absent_user_404_witness :
    truthyStr pbNoUser.title = true ∧ truthyStr pbNoUser.description = true ∧
    truthyNat pbNoUser.userId = true ∧ findUser dbW 99 = none ∧
    postPostsHandler pbNoUser none dbW =
      (.notFound "User not found", dbW, [.findUserById 99]) :=
  ⟨by decide, by decide, by decide, by decide,
   postPosts_absent_user_404 pbNoUser dbW (by decide) (by decide) (by decide)
     (by decide)⟩

/-- C6: `GET /users/:id/posts` always answers 200 with exactly the posts
owned by the path id, leaves the state unchanged, answers the empty array
when that id owns no posts (in particular when no such user exists), and
never answers 404 — not even on a storage failure. -/
theorem getUserPosts_always_200 (uid : Nat) (db : DB) :
    ∃ ps, getUserPostsHandler uid none db = (.okPosts ps, db) ∧
      (getUserPostsHandler uid none db).1.status = 200 ∧
      (∀ p, p ∈ ps ↔ p ∈ db.posts ∧ p.userId = uid) ∧
      ((∀ p ∈ db.posts, p.userId ≠ uid) → ps = []) ∧
      (∀ e : Option String, (getUserPostsHandler uid e db).1.status ≠ 404) := by
  refine ⟨db.posts.filter (fun p => p.userId == uid), rfl, rfl, ?_, ?_, ?_⟩
  · intro p
    simp [List.mem_filter]
  · intro h
    rw [List.filter_eq_nil_iff]
    intro p hp
    simpa using h p hp
  · intro e
    cases e <;> simp [getUserPostsHandler, HttpResponse.status]

/-- Witness for C6: id 7 exists in no user row and owns no posts, yet the
endpoint answers 200 with the empty array. -/
theorem getUserPosts_always_200_witness :
    (∀ p ∈ dbW.posts, p.userId ≠ 7) ∧
    getUserPostsHandler 7 none dbW = (.okPosts [], dbW) := by
  have h := getUserPosts_always_200 7 dbW
  obtain ⟨ps, heq, _, _, hemp, _⟩ := h
  refine ⟨by decide, ?_⟩
  rw [hemp (by decide)] at heq
  exact heq

/-- C2: on an existing user, `PUT /users/:id` overwrites a stored field iff
the body supplies a truthy value for it (a falsy value, the empty string
included, leaves the field unchanged), persists the result and answers 200
with the updated record. -/
theorem putUser_truthy_overwrite (uid : Nat) (b : UserBody) (db : DB)
    (u : User) (hu : findUser db uid = some u) :
    ∃ u2,
      (putUserHandler uid b none db).1 = .okUser u2 ∧
      (putUserHandler uid b none db).1.status = 200 ∧
      (truthyStr b.firstName = true → b.firstName = some u2.firstName) ∧
      (truthyStr b.firstName = false → u2.firstName = u.firstName) ∧
      (truthyStr b.lastName = true → b.lastName = some u2.lastName) ∧
      (truthyStr b.lastName = false → u2.lastName = u.lastName) ∧
      (truthyStr b.email = true → b.email = some u2.email) ∧
      (truthyStr b.email = false → u2.email = u.email) ∧
      findUser (putUserHandler uid b none db).2 uid = some u2 := by
  have heq : putUserHandler uid b none db =
      (.okUser (applyUserUpdate b u), saveUser db (applyUserUpdate b u)) := by
    unfold putUserHandler
    rw [hu]
  refine ⟨applyUserUpdate b u, ?_, ?_, ?_, ?_, ?_, ?_, ?_, ?_, ?_⟩
  · rw [heq]
  · rw [heq]; rfl
  · intro h
    rw [applyUserUpdate_firstName, if_pos h]
    exact truthy_getD h u.firstName
  · intro h
    rw [applyUserUpdate_firstName, if_neg (by simp [h])]
  · intro h
    rw [applyUserUpdate_lastName, if_pos h]
    exact truthy_getD h u.lastName
  · intro h
    rw [applyUserUpdate_lastName, if_neg (by simp [h])]
  · intro h
    rw [applyUserUpdate_email, if_pos h]
    exact truthy_getD h u.email
  · intro h
    rw [applyUserUpdate_email, if_neg (by simp [h])]
  · rw [heq]
    exact findUser_saveUser hu (applyUserUpdate_id b u)

/-- Witness for C2: `PUT /users/1` with an empty-string `firstName` leaves
`firstName` untouched and answers 200. -/
theorem putUser_truthy_overwrite_witness :
    findUser dbW 1 = some userW ∧
    ∃ u2, (putUserHandler 1 ubEmptyFirst none dbW).1 = .okUser u2 ∧
      u2.firstName = userW.firstName := by
  refine ⟨by decide, ?_⟩
  obtain ⟨u2, h1, _, _, h4, _⟩ :=
    putUser_truthy_overwrite 1 ubEmptyFirst dbW userW (by decide)
  exact ⟨u2, h1, h4 (by decide)⟩

/-- C10: on an existing user, `PUT /users/:id` with a body supplying no
truthy field (for example the empty body) answers 200 with the unchanged
record and is an identity on the stored state (user ids being unique, as
the primary key guarantees). -/
theorem putUser_falsy_identity (uid : Nat) (b : UserBody) (db : DB) (u : User)
    (huniq : db.uniqueUserIds) (hu : findUser db uid = some u)
    (h1 : truthyStr b.firstName = false) (h2 : truthyStr b.lastName = false)
    (h3 : truthyStr b.email = false) :
    putUserHandler uid b none db = (.okUser u, db) := by
  have hupd : applyUserUpdate b u = u := by
    unfold applyUserUpdate
    simp [h1, h2, h3]
  have hmem : u ∈ db.users := List.mem_of_find?_eq_some hu
  have heq : putUserHandler uid b none db =
      (.okUser (applyUserUpdate b u), saveUser db (applyUserUpdate b u)) := by
    unfold putUserHandler
    rw [hu]
  rw [heq, hupd, saveUser_self hmem huniq]

/-- Witness for C10: the empty body on `PUT /users/1` answers 200 with the
stored record and leaves the database exactly as it was. -/
theorem putUser_falsy_identity_witness :
    dbW.uniqueUserIds ∧ findUser dbW 1 = some userW ∧
    putUserHandler 1 ⟨none, none, none⟩ none dbW = (.okUser userW, dbW) :=
  ⟨by unfold DB.uniqueUserIds; decide, by decide,
   putUser_falsy_identity 1 ⟨none, none, none⟩ dbW userW
     (by unfold DB.uniqueUserIds; decide) (by decide) (by decide) (by decide)
     (by decide)⟩

/-- C7: on an existing post, `PUT /posts/:id` changes at most `title` and
`description` (each overwritten iff the body value is truthy); the post's
id and owning user reference are unchanged for every body — including
bodies that supply a `userId`, which the handler never reads. -/
theorem putPost_frame (pid : Nat) (b : PostBody) (db : DB) (p : Post)
    (hp : findPost db pid = some p) :
    ∃ p2,
      (putPostHandler pid b none db).1 = .okPost p2 ∧
      (putPostHandler pid b none db).1.status = 200 ∧
      p2.id = p.id ∧ p2.userId = p.userId ∧
      (truthyStr b.title = true → b.title = some p2.title) ∧
      (truthyStr b.title = false → p2.title = p.title) ∧
      (truthyStr b.description = true → b.description = some p2.description) ∧
      (truthyStr b.description = false → p2.description = p.description) ∧
      findPost (putPostHandler pid b none db).2 pid = some p2 := by
  have heq : putPostHandler pid b none db =
      (.okPost (applyPostUpdate b p), savePost db (applyPostUpdate b p)) := by
    unfold putPostHandler
    rw [hp]
  refine ⟨applyPostUpdate b p, ?_, ?_, rfl, rfl, ?_, ?_, ?_, ?_, ?_⟩
  · rw [heq]
  · rw [heq]; rfl
  · intro h
    show b.title = some (jsOrStr b.title p.title)
    unfold jsOrStr
    rw [if_pos h]
    exact truthy_getD h p.title
  · intro h
    show jsOrStr b.title p.title = p.title
    unfold jsOrStr
    rw [if_neg (by simp [h])]
  · intro h
    show b.description = some (jsOrStr b.description p.description)
    unfold jsOrStr
    rw [if_pos h]
    exact truthy_getD h p.description
  · intro h
    show jsOrStr b.description p.description = p.description
    unfold jsOrStr
    rw [if_neg (by simp [h])]
  · rw [heq]
    exact findPost_savePost hp rfl

/-- Witness for C7: a body that tries to move post 1 to user 2 and renames
its title changes the title but neither the id nor the owner. -/
theorem putPost_frame_witness :
    findPost dbW 1 = some postW ∧
    ∃ p2, (putPostHandler 1 ⟨some "New", none, some 2⟩ none dbW).1 =
        .okPost p2 ∧
      p2.id = postW.id ∧ p2.userId = postW.userId ∧ p2.title = "New" ∧
      p2.description = postW.description := by
  refine ⟨by decide, ?_⟩
  obtain ⟨p2, h1, _, hid, huid, ht, _, _, hd, _⟩ :=
    putPost_frame 1 ⟨some "New", none, some 2⟩ dbW postW (by decide)
  refine ⟨p2, h1, hid, huid, ?_, hd (by decide)⟩
  have := ht (by decide)
  simpa using this.symm

/-- C1: with the schema invariants holding (ids unique, every post owned by
an existing user), `DELETE /users/:id` on an existing user answers 200,
removes that user and every post it owns — the storage cascade — and the
surviving state still has exactly one owning user row for every post: no
orphan is ever left. -/
theorem deleteUser_cascades (uid : Nat) (db : DB) (u : User)
    (hOwner : db.ownerExists) (hUniq : db.uniqueUserIds)
    (hu : findUser db uid = some u) :
    (deleteUserHandler uid none db).1 = .okMsg "User deleted successfully" ∧
    (∀ v ∈ (deleteUserHandler uid none db).2.users, v.id ≠ uid) ∧
    (∀ p ∈ (deleteUserHandler uid none db).2.posts, p.userId ≠ uid) ∧
    (deleteUserHandler uid none db).2.ownerExists ∧
    (∀ p ∈ (deleteUserHandler uid none db).2.posts,
      ∃! v, v ∈ (deleteUserHandler uid none db).2.users ∧
        v.id = p.userId) := by
  have hid : u.id = uid := id_of_find?_eq_some User.id hu
  have heq : deleteUserHandler uid none db =
      (.okMsg "User deleted successfully",
        { users := db.users.filter (fun x => !(x.id == u.id)),
          posts := db.posts.filter (fun p => !(p.userId == u.id)) }) := by
    unfold deleteUserHandler
    rw [hu]
  rw [heq]
  refine ⟨rfl, ?_, ?_, ?_, ?_⟩
  · intro v hv
    have h2 := (List.mem_filter.mp hv).2
    simp only [Bool.not_eq_true', beq_eq_false_iff_ne, ne_eq] at h2
    rw [hid] at h2
    exact h2
  · intro p hp
    have h2 := (List.mem_filter.mp hp).2
    simp only [Bool.not_eq_true', beq_eq_false_iff_ne, ne_eq] at h2
    rw [hid] at h2
    exact h2
  · intro p hp
    rcases List.mem_filter.mp hp with ⟨hmem, hpne⟩
    rcases hOwner p hmem with ⟨v, hvmem, hvid⟩
    refine ⟨v, List.mem_filter.mpr ⟨hvmem, ?_⟩, hvid⟩
    rw [hvid]
    exact hpne
  · intro p hp
    rcases List.mem_filter.mp hp with ⟨hmem, hpne⟩
    rcases hOwner p hmem with ⟨v, hvmem, hvid⟩
    refine ⟨v, ⟨List.mem_filter.mpr ⟨hvmem, ?_⟩, hvid⟩, ?_⟩
    · rw [hvid]
      exact hpne
    · rintro y ⟨hymem, hyid⟩
      exact eq_of_pairwise_ne_id User.id db.users hUniq
        y (List.mem_of_mem_filter hymem) v hvmem (by rw [hyid, hvid])

/-- Witness for C1: deleting user 1 from the concrete database removes the
user and its post, answers 200, and leaves no post owned by id 1. -/
theorem deleteUser_cascades_witness :
    dbW.ownerExists ∧ dbW.uniqueUserIds ∧ findUser dbW 1 = some userW ∧
    (deleteUserHandler 1 none dbW).1 = .okMsg "User deleted successfully" ∧
    (∀ p ∈ (deleteUserHandler 1 none dbW).2.posts, p.userId ≠ 1) := by
  have h := deleteUser_cascades 1 dbW userW
    (by unfold DB.ownerExists; decide) (by unfold DB.uniqueUserIds; decide)
    (by decide)
  exact ⟨by unfold DB.ownerExists; decide, by unfold DB.uniqueUserIds; decide,
    by decide, h.1, h.2.2.1⟩

/-- C9: a 404 answer leaves the database exactly as it was, for each of the
five mutating or potentially-mutating endpoints: the not-found check
precedes every write. -/
theorem notFound_leaves_state (uid pid : Nat) (ub : UserBody) (pb : PostBody)
    (db : DB) :
    ((putUserHandler uid ub none db).1.status = 404 →
      (putUserHandler uid ub none db).2 = db) ∧
    ((deleteUserHandler uid none db).1.status = 404 →
      (deleteUserHandler uid none db).2 = db) ∧
    ((postPostsHandler pb none db).1.status = 404 →
      (postPostsHandler pb none db).2.1 = db) ∧
    ((putPostHandler pid pb none db).1.status = 404 →
      (putPostHandler pid pb none db).2 = db) ∧
    ((deletePostHandler pid none db).1.status = 404 →
      (deletePostHandler pid none db).2 = db) := by
  refine ⟨?_, ?_, ?_, ?_, ?_⟩
  · intro h
    unfold putUserHandler at h ⊢
    cases hfu : findUser db uid with
    | none => rfl
    | some u =>
      rw [hfu] at h
      simp [HttpResponse.status] at h
  · intro h
    unfold deleteUserHandler at h ⊢
    cases hfu : findUser db uid with
    | none => rfl
    | some u =>
      rw [hfu] at h
      simp [HttpResponse.status] at h
  · intro h
    unfold postPostsHandler at h ⊢
    by_cases hg : (!truthyStr pb.title || !truthyStr pb.description ||
        !truthyNat pb.userId) = true
    · rw [if_pos hg] at h
      simp [HttpResponse.status] at h
    · rw [if_neg hg] at h ⊢
      cases hfu : findUser db (pb.userId.getD 0) with
      | none => simp only [hfu]
      | some u =>
        simp only [hfu] at h
        simp [HttpResponse.status] at h
  · intro h
    unfold putPostHandler at h ⊢
    cases hfp : findPost db pid with
    | none => rfl
    | some p =>
      rw [hfp] at h
      simp [HttpResponse.status] at h
  · intro h
    unfold deletePostHandler at h ⊢
    cases hfp : findPost db pid with
    | none => rfl
    | some p =>
      rw [hfp] at h
      simp [HttpResponse.status] at h

/-- Witness for C9: five concrete 404 requests against the concrete
database all leave it unchanged. -/
theorem notFound_leaves_state_witness :
    (putUserHandler 99 ubFull none dbW).1.status = 404 ∧
    (putUserHandler 99 ubFull none dbW).2 = dbW ∧
    (deleteUserHandler 99 none dbW).2 = dbW ∧
    (postPostsHandler pbNoUser none dbW).2.1 = dbW ∧
    (putPostHandler 99 pbFull none dbW).2 = dbW ∧
    (deletePostHandler 99 none dbW).2 = dbW := by
  have h := notFound_leaves_state 99 99 ubFull pbNoUser dbW
  exact ⟨by decide, h.1 (by decide), h.2.1 (by decide), h.2.2.1 (by decide),
    h.2.2.2.1 (by decide), h.2.2.2.2 (by decide)⟩

/-- C8: on every endpoint, a storage failure raised inside the handler's
`try` block — whatever its detail text `e` — is caught in that handler and
surfaced as a 500 with that handler's fixed generic message; the response
is a constant, so no detail of the underlying error reaches the caller.
(The `POST /posts` conjunct assumes the three body fields are truthy, since
otherwise its presence check answers 400 before any storage call.) -/
theorem handlers_catch_500 (e : String) (db : DB) (uid pid : Nat)
    (ub : UserBody) (pb : PostBody) :
    getUsersHandler (some e) db = (.serverError "Error fetching users", db) ∧
    postUsersHandler ub (some e) db =
      (.serverError "Error creating user", db) ∧
    putUserHandler uid ub (some e) db =
      (.serverError "Error updating user", db) ∧
    deleteUserHandler uid (some e) db =
      (.serverError "Error deleting user", db) ∧
    (truthyStr pb.title = true → truthyStr pb.description = true →
      truthyNat pb.userId = true →
      postPostsHandler pb (some e) db =
        (.serverError "Error creating post", db, [])) ∧
    getUserPostsHandler uid (some e) db =
      (.serverError "Error fetching posts", db) ∧
    putPostHandler pid pb (some e) db =
      (.serverError "Error updating post", db) ∧
    deletePostHandler pid (some e) db =
      (.serverError "Error deleting post", db) := by
  refine ⟨rfl, rfl, rfl, rfl, ?_, rfl, rfl, rfl⟩
  intro h1 h2 h3
  unfold postPostsHandler
  simp [h1, h2, h3]

/-- Witness for C8: a concrete failure detail string surfaces on two
representative endpoints as the fixed 500 messages, which do not mention
it. -/
theorem handlers_catch_500_witness :
    truthyStr pbFull.title = true ∧ truthyStr pbFull.description = true ∧
    truthyNat pbFull.userId = true ∧
    postPostsHandler pbFull (some "ER_ACCESS_DENIED") dbW =
      (.serverError "Error creating post", dbW, []) ∧
    getUsersHandler (some "ER_ACCESS_DENIED") dbW =
      (.serverError "Error fetching users", dbW) := by
  have h := handlers_catch_500 "ER_ACCESS_DENIED" dbW 1 1 ubFull pbFull
  exact ⟨by decide, by decide, by decide,
    h.2.2.2.2.1 (by decide) (by decide) (by decide), h.1⟩

end CrudApp
